import Mathlib

/-!
Verification of the access decision engine, priority-list cache and
entitlement model of the `gate` repository, as a shallow embedding of the
Go source into Lean.

Conventions of the embedding:
* `time.Time` is modelled as `Int` (an instant on a linear timeline);
  `a.Before(b)` is `a < b`, `a.After(b)` is `a > b`.
* `uuid.UUID` is modelled as `Nat`, with `0` standing for `uuid.Nil`.
* `float64` confidence values are modelled as `Rat`.
* A Go function returning `(T, error)` is modelled as `Except E T`;
  a Go `error` result that the caller only tests for nil is `Option E`.
* The Redis cache is modelled as an association list from keys to string
  values; entries do not expire inside a modelled scenario (the scenarios
  of interest all happen "before the TTL expires", which makes the
  theorems about invalidation strictly stronger).
-/

namespace Gate

/-! ### Entitlement model (`internal/domain`, pass part of `ml/client.go` bundle) -/

/-- PassType in Go is a string type with constants `"permanent"` and
`"temporary"`; it is modelled as a plain `String` so that out-of-range
values remain representable, as in the source. -/
abbrev PassType := String

/-- Constant `PassTypePermanent`. -/
def passTypePermanent : PassType := "permanent"

/-- Constant `PassTypeTemporary`. -/
def passTypeTemporary : PassType := "temporary"

/-- Pass (entitlement) record, fields as in `domain.Pass`.  Fields that the
modelled logic never reads (created/updated metadata, revocation details,
joined data) are omitted. -/
structure Pass where
  id : Nat
  userId : Nat
  passType : PassType
  validFrom : Int
  validUntil : Option Int
  isActive : Bool
  deriving DecidableEq, Repr

/-- Pass.IsValid from the source, with the call to `time.Now()` made an
explicit `now` parameter:

  if !p.IsActive return false;
  if now.Before(p.ValidFrom) return false;
  if p.PassType == PassTypeTemporary && p.ValidUntil != nil
    and now.After(*p.ValidUntil) return false;
  return true. -/
def Pass.isValid (p : Pass) (now : Int) : Bool :=
  if !p.isActive then
    false
  else if now < p.validFrom then
    false
  else
    match p.passType == passTypeTemporary, p.validUntil with
    | true, some u => if now > u then false else true
    | _, _ => true

/-- Error values relevant to `Pass.Validate` (from `domain/errors.go`). -/
inductive PassValidateErr where
  | invalidPassData
  | invalidPassType
  | invalidDateRange
  deriving DecidableEq, Repr

/-- Pass.Validate from the source: `some e` models `return e`, `none`
models `return nil`:

  if p.UserID == uuid.Nil return ErrInvalidPassData;
  if p.PassType != permanent && p.PassType != temporary return ErrInvalidPassType;
  if p.PassType == temporary:
    if p.ValidUntil == nil return ErrInvalidPassData;
    if p.ValidUntil.Before(p.ValidFrom) return ErrInvalidDateRange;
  return nil. -/
def Pass.validate (p : Pass) : Option PassValidateErr :=
  if p.userId = 0 then
    some PassValidateErr.invalidPassData
  else if p.passType ≠ passTypePermanent ∧ p.passType ≠ passTypeTemporary then
    some PassValidateErr.invalidPassType
  else if p.passType = passTypeTemporary then
    match p.validUntil with
    | none => some PassValidateErr.invalidPassData
    | some u => if u < p.validFrom then some PassValidateErr.invalidDateRange else none
  else
    none

/-- Constraint `valid_dates_check` of table `passes` in
`migrations/000001_init_schema.up.sql`:
`CHECK (valid_until IS NULL OR valid_until > valid_from)`. -/
def validDatesCheck (p : Pass) : Bool :=
  match p.validUntil with
  | none => true
  | some u => p.validFrom < u

/-! ### Auxiliary domain records -/

/-- Vehicle record (`domain.Vehicle`), restricted to the fields the
decision engine reads. -/
structure Vehicle where
  id : Nat
  ownerId : Nat
  licensePlate : String
  isActive : Bool
  deriving DecidableEq, Repr

/-- User record (`domain.User`), restricted to the fields the decision
engine reads. -/
structure User where
  id : Nat
  isActive : Bool
  deriving DecidableEq, Repr

/-- NormalizeLicensePlate from `domain/vehicle.go`:
`strings.ToUpper(strings.ReplaceAll(plate, " ", ""))`.  Replacing every
occurrence of the one-character pattern `" "` by `""` is filtering the
space character out; `strings.ToUpper` is modelled per character
(`Char.toUpper`), which agrees with the source on ASCII plates. -/
def normalizeLicensePlate (plate : String) : String :=
  String.mk ((plate.data.filter (fun c => c ≠ ' ')).map Char.toUpper)

/-- Direction is a string type in the source (`domain.Direction`); the
engine casts the request's direction string into it unchecked. -/
abbrev Direction := String

/-- AccessLog record (`domain.AccessLog`), restricted to the fields the
engine writes. -/
structure AccessLog where
  userId : Option Nat
  vehicleId : Option Nat
  licensePlate : String
  recognitionConfidence : Rat
  accessGranted : Bool
  accessReason : String
  gateId : String
  direction : Direction
  timestamp : Int
  deriving DecidableEq, Repr

/-- Error values returned by `AccessLog.Validate`. -/
inductive AccessLogErr where
  | invalidAccessLogData
  | invalidDirection
  | invalidConfidence
  deriving DecidableEq, Repr

/-- AccessLog.Validate from the source:

  if al.LicensePlate == "" return ErrInvalidAccessLogData;
  if al.Direction != IN && al.Direction != OUT return ErrInvalidDirection;
  if al.RecognitionConfidence < 0 || > 100 return ErrInvalidConfidence;
  return nil. -/
def AccessLog.validate (al : AccessLog) : Option AccessLogErr :=
  if al.licensePlate = "" then
    some AccessLogErr.invalidAccessLogData
  else if al.direction ≠ "IN" ∧ al.direction ≠ "OUT" then
    some AccessLogErr.invalidDirection
  else if al.recognitionConfidence < 0 ∨ al.recognitionConfidence > 100 then
    some AccessLogErr.invalidConfidence
  else
    none

/-! ### Access decision engine (`internal/usecase/access/service.go`) -/

/-- RecognitionResult from `infrastructure/ml/client.go` (bounding box and
processing time omitted: the engine never reads them). -/
structure RecognitionResult where
  success : Bool
  licensePlate : String
  confidence : Rat
  error : String
  deriving DecidableEq, Repr

/-- CheckAccessRequest from the source. -/
structure CheckAccessRequest where
  imageBase64 : String
  gateId : String
  direction : String
  deriving DecidableEq, Repr

/-- CheckAccessResponse from the source. -/
structure CheckAccessResponse where
  accessGranted : Bool
  licensePlate : String
  confidence : Rat
  vehicle : Option Vehicle
  user : Option User
  pass : Option Pass
  reason : String
  timestamp : Int
  deriving DecidableEq, Repr

/-- Outcome of a repository fetch that distinguishes the sentinel
"not found" error from any other (store/connectivity) error, mirroring
the `err == domain.ErrXxxNotFound` tests in the source. -/
inductive FetchErr where
  | notFound
  | store
  deriving DecidableEq, Repr

/-- Result of one `IsWhitelisted` / `IsBlacklisted` call as seen by the
engine: the returned membership boolean, the returned reason, and whether
the call also returned a non-nil error (which the engine only logs). -/
structure ListCheckResult where
  isMember : Bool
  reason : String
  errOccurred : Bool
  deriving DecidableEq, Repr

/-- Environment of one `CheckAccess` execution: the replies of every
collaborator the engine may call during that execution.  `recognizeFn`
is a function of the minimum-confidence argument because the engine
forwards its configured threshold to the recognizer inside the request. -/
structure CheckEnv where
  recognizeFn : Rat → Except Unit RecognitionResult
  whitelist : ListCheckResult
  blacklist : ListCheckResult
  vehicle : Except FetchErr Vehicle
  user : Except FetchErr User
  passes : Except Unit (List Pass)
  now : Int
  auditCreateOk : Bool

/-- Tag for each outward call the engine can make, used to record which
lookups an execution actually performed. -/
inductive CallTag where
  | recognize
  | whitelistCheck
  | blacklistCheck
  | vehicleLookup
  | userLookup
  | passLookup
  | auditInsert
  deriving DecidableEq, Repr

/-- Observable outcome of one `CheckAccess` execution: the returned value
(`Except.error` models the `return nil, err` paths), the sequence of
outward calls made, the audit records submitted to
`accessLogRepo.Create`, and those actually persisted (Create succeeded). -/
structure CheckOutcome where
  result : Except Unit CheckAccessResponse
  calls : List CallTag
  auditSubmitted : List AccessLog
  auditPersisted : List AccessLog
  deriving Repr

/-- Service.logAccess from the source: assembles the AccessLog from the
response, request and resolved vehicle/user (the pass argument of the Go
function is never stored in the record and is omitted), validates it, and
only on successful validation hands it to `accessLogRepo.Create`.
Returns the record submitted to Create, or `none` when validation failed
and the write was skipped. -/
def logAccess (resp : CheckAccessResponse) (req : CheckAccessRequest)
    (vehicle : Option Vehicle) (user : Option User) : Option AccessLog :=
  let al : AccessLog :=
    { userId := user.map (fun u => u.id)
      vehicleId := vehicle.map (fun v => v.id)
      licensePlate := resp.licensePlate
      recognitionConfidence := resp.confidence
      accessGranted := resp.accessGranted
      accessReason := resp.reason
      gateId := req.gateId
      direction := req.direction
      timestamp := resp.timestamp }
  match al.validate with
  | some _ => none
  | none => some al

/-- Wraps a terminal decision of CheckAccess: every decision path of the
source calls `s.logAccess(...)` and then returns `(response, nil)`. -/
def finishDecision (env : CheckEnv) (req : CheckAccessRequest)
    (resp : CheckAccessResponse) (calls : List CallTag)
    (vehicle : Option Vehicle) (user : Option User) : CheckOutcome :=
  match logAccess resp req vehicle user with
  | some al =>
      { result := Except.ok resp
        calls := calls ++ [CallTag.auditInsert]
        auditSubmitted := [al]
        auditPersisted := if env.auditCreateOk then [al] else [] }
  | none =>
      { result := Except.ok resp
        calls := calls
        auditSubmitted := []
        auditPersisted := [] }

/-- Wraps a hard-error exit of CheckAccess: the `return nil, err` paths of
the source, which do not call logAccess. -/
def hardError (calls : List CallTag) : CheckOutcome :=
  { result := Except.error ()
    calls := calls
    auditSubmitted := []
    auditPersisted := [] }

/-- Service.CheckAccess from the source, stage by stage:
recognition, whitelist (priority 1, unconditional grant), blacklist
(priority 2, unconditional deny), vehicle lookup and activity check,
owner lookup and activity check, pass fetch and first-valid scan.
List-check errors are only logged (execution continues with the returned
boolean); non-"not found" vehicle/user/pass errors exit as hard errors. -/
def checkAccess (minConfidence : Rat) (env : CheckEnv) (req : CheckAccessRequest) :
    CheckOutcome :=
  let resp0 : CheckAccessResponse :=
    { accessGranted := false, licensePlate := "", confidence := 0,
      vehicle := none, user := none, pass := none, reason := "",
      timestamp := env.now }
  match env.recognizeFn minConfidence with
  | Except.error _ =>
      finishDecision env req
        { resp0 with reason := "Recognition service unavailable" }
        [CallTag.recognize] none none
  | Except.ok rr =>
      if !rr.success then
        finishDecision env req
          { resp0 with reason := "License plate not recognized: " ++ rr.error }
          [CallTag.recognize] none none
      else
        let resp1 := { resp0 with licensePlate := rr.licensePlate,
                                  confidence := rr.confidence }
        if env.whitelist.isMember then
          finishDecision env req
            { resp1 with accessGranted := true,
                         reason := "Whitelisted: " ++ env.whitelist.reason }
            [CallTag.recognize, CallTag.whitelistCheck] none none
        else if env.blacklist.isMember then
          finishDecision env req
            { resp1 with reason := "Blacklisted: " ++ env.blacklist.reason }
            [CallTag.recognize, CallTag.whitelistCheck, CallTag.blacklistCheck]
            none none
        else
          match env.vehicle with
          | Except.error FetchErr.notFound =>
              finishDecision env req
                { resp1 with reason := "Vehicle not registered" }
                [CallTag.recognize, CallTag.whitelistCheck,
                 CallTag.blacklistCheck, CallTag.vehicleLookup] none none
          | Except.error FetchErr.store =>
              hardError
                [CallTag.recognize, CallTag.whitelistCheck,
                 CallTag.blacklistCheck, CallTag.vehicleLookup]
          | Except.ok v =>
              if !v.isActive then
                finishDecision env req
                  { resp1 with reason := "Vehicle is inactive" }
                  [CallTag.recognize, CallTag.whitelistCheck,
                   CallTag.blacklistCheck, CallTag.vehicleLookup]
                  (some v) none
              else
                let resp2 := { resp1 with vehicle := some v }
                match env.user with
                | Except.error FetchErr.notFound =>
                    finishDecision env req
                      { resp2 with reason := "Vehicle owner not found" }
                      [CallTag.recognize, CallTag.whitelistCheck,
                       CallTag.blacklistCheck, CallTag.vehicleLookup,
                       CallTag.userLookup] (some v) none
                | Except.error FetchErr.store =>
                    hardError
                      [CallTag.recognize, CallTag.whitelistCheck,
                       CallTag.blacklistCheck, CallTag.vehicleLookup,
                       CallTag.userLookup]
                | Except.ok u =>
                    if !u.isActive then
                      finishDecision env req
                        { resp2 with reason := "User account is inactive" }
                        [CallTag.recognize, CallTag.whitelistCheck,
                         CallTag.blacklistCheck, CallTag.vehicleLookup,
                         CallTag.userLookup] (some v) (some u)
                    else
                      let resp3 := { resp2 with user := some u }
                      match env.passes with
                      | Except.error _ =>
                          hardError
                            [CallTag.recognize, CallTag.whitelistCheck,
                             CallTag.blacklistCheck, CallTag.vehicleLookup,
                             CallTag.userLookup, CallTag.passLookup]
                      | Except.ok passes =>
                          if passes.isEmpty then
                            finishDecision env req
                              { resp3 with
                                  reason := "No valid pass found for this vehicle" }
                              [CallTag.recognize, CallTag.whitelistCheck,
                               CallTag.blacklistCheck, CallTag.vehicleLookup,
                               CallTag.userLookup, CallTag.passLookup]
                              (some v) (some u)
                          else
                            match passes.find? (fun p => p.isValid env.now) with
                            | none =>
                                finishDecision env req
                                  { resp3 with
                                      reason := "All passes expired or invalid" }
                                  [CallTag.recognize, CallTag.whitelistCheck,
                                   CallTag.blacklistCheck, CallTag.vehicleLookup,
                                   CallTag.userLookup, CallTag.passLookup]
                                  (some v) (some u)
                            | some validPass =>
                                finishDecision env req
                                  { resp3 with accessGranted := true,
                                               pass := some validPass,
                                               reason := "Valid pass found" }
                                  [CallTag.recognize, CallTag.whitelistCheck,
                                   CallTag.blacklistCheck, CallTag.vehicleLookup,
                                   CallTag.userLookup, CallTag.passLookup]
                                  (some v) (some u)

/-! ### Priority-list cache (`internal/repository/cached`, postgres stores) -/

/-- Redis key/value state, as an association list (most recent binding
first).  `cacheGet` models `redis GET` (`none` is `redis.Nil`),
`cacheSet` models `SET` with TTL (expiry within a scenario is not
modelled), `cacheDel` models `DEL`. -/
abbrev CacheState := List (String × String)

/-- Value bound to a key, if any. -/
def cacheGet (cache : CacheState) (key : String) : Option String :=
  (cache.find? (fun kv => kv.fst == key)).map (fun kv => kv.snd)

/-- Binds a key to a value, replacing any previous binding. -/
def cacheSet (cache : CacheState) (key value : String) : CacheState :=
  (key, value) :: cache.filter (fun kv => kv.fst ≠ key)

/-- Removes the binding of a key. -/
def cacheDel (cache : CacheState) (key : String) : CacheState :=
  cache.filter (fun kv => kv.fst ≠ key)

/-- Whitelist entry (`domain.WhitelistEntry`). -/
structure WhitelistEntry where
  id : Nat
  licensePlate : String
  reason : String
  addedBy : Nat
  addedAt : Int
  expiresAt : Option Int
  isActive : Bool
  deriving DecidableEq, Repr

/-- Blacklist entry (`domain.BlacklistEntry`); structurally identical to
the whitelist entry, semantically opposite. -/
structure BlacklistEntry where
  id : Nat
  licensePlate : String
  reason : String
  addedBy : Nat
  addedAt : Int
  expiresAt : Option Int
  isActive : Bool
  deriving DecidableEq, Repr

/-- Splits a string at its first `':'`, as `strings.SplitN(s, ":", 2)`
does: `some (before, after)` when the string contains a colon (the
SplitN result has two parts), `none` when it does not (one part). -/
def splitFirstColonAux : List Char → Option (List Char × List Char)
  | [] => none
  | c :: cs =>
      if c = ':' then
        some ([], cs)
      else
        match splitFirstColonAux cs with
        | some (l, r) => some (c :: l, r)
        | none => none

/-- String-level wrapper of `splitFirstColonAux`. -/
def splitFirstColon (s : String) : Option (String × String) :=
  (splitFirstColonAux s.data).map (fun p => (String.mk p.fst, String.mk p.snd))

/-- Authoritative-store answer of `postgres.whitelistRepository.IsWhitelisted`:
first row with the normalized plate that is active and unexpired
(`expires_at IS NULL OR expires_at > NOW()`), yielding its reason;
`(false, "")` when no row matches (`pgx.ErrNoRows`). -/
def storeIsWhitelisted (store : List WhitelistEntry) (licensePlate : String)
    (now : Int) : Bool × String :=
  let norm := normalizeLicensePlate licensePlate
  match store.find? (fun e =>
      e.licensePlate == norm && e.isActive &&
        match e.expiresAt with
        | none => true
        | some t => now < t) with
  | some e => (true, e.reason)
  | none => (false, "")

/-- Authoritative-store answer of `postgres.blacklistRepository.IsBlacklisted`
(same query shape against the blacklist table). -/
def storeIsBlacklisted (store : List BlacklistEntry) (licensePlate : String)
    (now : Int) : Bool × String :=
  let norm := normalizeLicensePlate licensePlate
  match store.find? (fun e =>
      e.licensePlate == norm && e.isActive &&
        match e.expiresAt with
        | none => true
        | some t => now < t) with
  | some e => (true, e.reason)
  | none => (false, "")

/-- cached.WhitelistRepository.IsWhitelisted: cache lookup under key
`"whitelist:" ++ plate`; on a hit whose value splits at a colon, decode
`(parts[0] == "1", parts[1])` and return without touching the store; on a
miss or an undecodable value, ask the store, re-populate the cache with
`"1:" ++ reason` or `"0:"` (TTL 1 hour; Set errors ignored) and return
the store's answer.  Returns the answer paired with the updated cache. -/
def cachedIsWhitelisted (cache : CacheState) (store : List WhitelistEntry)
    (licensePlate : String) (now : Int) : (Bool × String) × CacheState :=
  let cacheKey := "whitelist:" ++ licensePlate
  let hit :=
    match cacheGet cache cacheKey with
    | some v =>
        match splitFirstColon v with
        | some parts => some (parts.fst == "1", parts.snd)
        | none => none
    | none => none
  match hit with
  | some ans => (ans, cache)
  | none =>
      let ans := storeIsWhitelisted store licensePlate now
      let cacheValue := if ans.fst then "1:" ++ ans.snd else "0:"
      (ans, cacheSet cache cacheKey cacheValue)

/-- cached.BlacklistRepository.IsBlacklisted: identical structure under
key `"blacklist:" ++ plate`. -/
def cachedIsBlacklisted (cache : CacheState) (store : List BlacklistEntry)
    (licensePlate : String) (now : Int) : (Bool × String) × CacheState :=
  let cacheKey := "blacklist:" ++ licensePlate
  let hit :=
    match cacheGet cache cacheKey with
    | some v =>
        match splitFirstColon v with
        | some parts => some (parts.fst == "1", parts.snd)
        | none => none
    | none => none
  match hit with
  | some ans => (ans, cache)
  | none =>
      let ans := storeIsBlacklisted store licensePlate now
      let cacheValue := if ans.fst then "1:" ++ ans.snd else "0:"
      (ans, cacheSet cache cacheKey cacheValue)

/-- postgres.whitelistRepository.Create: assigns a fresh id and
creation time, normalizes the entry's plate in place, and inserts the
row.  Returns the new store and the mutated entry (the Go code mutates
the entry through its pointer before the cached layer reads it back). -/
def storeWhitelistCreate (store : List WhitelistEntry) (entry : WhitelistEntry)
    (newId : Nat) (now : Int) : List WhitelistEntry × WhitelistEntry :=
  let e := { entry with id := newId, addedAt := now,
                        licensePlate := normalizeLicensePlate entry.licensePlate }
  (store ++ [e], e)

/-- postgres.whitelistRepository.Delete: deletes the row by id;
`Except.error ()` models `ErrWhitelistEntryNotFound` when no row was
affected. -/
def storeWhitelistDelete (store : List WhitelistEntry) (id : Nat) :
    Except Unit (List WhitelistEntry) :=
  if store.any (fun e => e.id == id) then
    Except.ok (store.filter (fun e => e.id ≠ id))
  else
    Except.error ()

/-- cached.WhitelistRepository.Create: store insert, then `DEL` of the
single key for the (now normalized) plate. -/
def cachedWhitelistCreate (cache : CacheState) (store : List WhitelistEntry)
    (entry : WhitelistEntry) (newId : Nat) (now : Int) :
    CacheState × List WhitelistEntry × WhitelistEntry :=
  let created := storeWhitelistCreate store entry newId now
  (cacheDel cache ("whitelist:" ++ created.snd.licensePlate),
   created.fst, created.snd)

/-- cached.WhitelistRepository.Delete: store delete by id only; the cache
is deliberately not touched (the identifier is unknown here), so any
cached value for the plate stays until its TTL. -/
def cachedWhitelistDelete (cache : CacheState) (store : List WhitelistEntry)
    (id : Nat) : Except Unit (CacheState × List WhitelistEntry) :=
  match storeWhitelistDelete store id with
  | Except.ok store2 => Except.ok (cache, store2)
  | Except.error e => Except.error e

/-- postgres.blacklistRepository.Create (same shape as the whitelist). -/
def storeBlacklistCreate (store : List BlacklistEntry) (entry : BlacklistEntry)
    (newId : Nat) (now : Int) : List BlacklistEntry × BlacklistEntry :=
  let e := { entry with id := newId, addedAt := now,
                        licensePlate := normalizeLicensePlate entry.licensePlate }
  (store ++ [e], e)

/-- postgres.blacklistRepository.Delete (same shape as the whitelist). -/
def storeBlacklistDelete (store : List BlacklistEntry) (id : Nat) :
    Except Unit (List BlacklistEntry) :=
  if store.any (fun e => e.id == id) then
    Except.ok (store.filter (fun e => e.id ≠ id))
  else
    Except.error ()

/-- cached.BlacklistRepository.Create (same shape as the whitelist). -/
def cachedBlacklistCreate (cache : CacheState) (store : List BlacklistEntry)
    (entry : BlacklistEntry) (newId : Nat) (now : Int) :
    CacheState × List BlacklistEntry × BlacklistEntry :=
  let created := storeBlacklistCreate store entry newId now
  (cacheDel cache ("blacklist:" ++ created.snd.licensePlate),
   created.fst, created.snd)

/-- cached.BlacklistRepository.Delete (same shape as the whitelist). -/
def cachedBlacklistDelete (cache : CacheState) (store : List BlacklistEntry)
    (id : Nat) : Except Unit (CacheState × List BlacklistEntry) :=
  match storeBlacklistDelete store id with
  | Except.ok store2 => Except.ok (cache, store2)
  | Except.error e => Except.error e

/-! ### Concrete instances used by witnesses and counterexamples -/

/-- Standard request used by concrete scenarios. -/
def reqStd : CheckAccessRequest :=
  { imageBase64 := "img", gateId := "G1", direction := "IN" }

/-- Successful recognition reply used by concrete scenarios. -/
def rrStd : RecognitionResult :=
  { success := true, licensePlate := "A123BC777", confidence := 95, error := "" }

/-- Environment where the plate is allow-listed while every lower tier
would fail hard, exercising the unconditional grant. -/
def envC1 : CheckEnv :=
  { recognizeFn := fun _ => Except.ok rrStd
    whitelist := { isMember := true, reason := "emergency services", errOccurred := false }
    blacklist := { isMember := true, reason := "stolen", errOccurred := false }
    vehicle := Except.error FetchErr.store
    user := Except.error FetchErr.store
    passes := Except.error ()
    now := 50
    auditCreateOk := true }

/-- Environment where the plate is deny-listed (and not allow-listed)
while the pass tier would grant, exercising the unconditional deny. -/
def envC2 : CheckEnv :=
  { envC1 with
      whitelist := { isMember := false, reason := "", errOccurred := false }
      blacklist := { isMember := true, reason := "stolen vehicle", errOccurred := false } }

/-- Temporary pass whose expiry instant is 100, used at the boundary. -/
def passBoundary : Pass :=
  { id := 1, userId := 7, passType := "temporary", validFrom := 0,
    validUntil := some 100, isActive := true }

/-- Temporary pass with `valid_until` equal to `valid_from`. -/
def passEqualBounds : Pass :=
  { id := 2, userId := 7, passType := "temporary", validFrom := 100,
    validUntil := some 100, isActive := true }

/-- Low-confidence but successful recognition reply. -/
def rrLow : RecognitionResult :=
  { success := true, licensePlate := "A123BC777", confidence := 10, error := "" }

/-- Environment whose recognizer reports success with confidence 10,
ignoring the threshold it is sent, for an allow-listed plate. -/
def envLowConf : CheckEnv :=
  { envC1 with recognizeFn := fun _ => Except.ok rrLow }

/-- Environment whose recognizer call fails. -/
def envRecogFail : CheckEnv :=
  { envC1 with recognizeFn := fun _ => Except.error () }

/-- Entry the Go create mutates in place: fresh id, creation time, and
normalized plate — named here so proofs can refer to it. -/
def createdWhitelistEntry (entry : WhitelistEntry) (newId : Nat) (tC : Int) :
    WhitelistEntry :=
  { entry with id := newId, addedAt := tC,
               licensePlate := normalizeLicensePlate entry.licensePlate }

/-- Blacklist counterpart of `createdWhitelistEntry`. -/
def createdBlacklistEntry (entry : BlacklistEntry) (newId : Nat) (tC : Int) :
    BlacklistEntry :=
  { entry with id := newId, addedAt := tC,
               licensePlate := normalizeLicensePlate entry.licensePlate }

/-- Whitelist store with one active unexpired entry, for witnesses. -/
def wstoreStd : List WhitelistEntry :=
  [{ id := 5, licensePlate := "A123BC777", reason := "emergency services",
     addedBy := 1, addedAt := 0, expiresAt := none, isActive := true }]

/-- Blacklist store with one active unexpired entry, for witnesses. -/
def bstoreStd : List BlacklistEntry :=
  [{ id := 6, licensePlate := "X999XX777", reason := "stolen",
     addedBy := 1, addedAt := 0, expiresAt := none, isActive := true }]

/-- Whitelist entry about to be created, for witnesses. -/
def entryC8w : WhitelistEntry :=
  { id := 0, licensePlate := "A123BC777", reason := "vip", addedBy := 1,
    addedAt := 0, expiresAt := none, isActive := true }

/-- Blacklist entry about to be created, for witnesses. -/
def entryC8b : BlacklistEntry :=
  { id := 0, licensePlate := "X999XX777", reason := "stolen", addedBy := 1,
    addedAt := 0, expiresAt := none, isActive := true }

/-- Cache state already holding stale confirmed-present values for both
plates, for witnesses. -/
def stalePresentCache : CacheState :=
  [("whitelist:A123BC777", "1:vip"), ("blacklist:X999XX777", "1:stolen")]

/-- Cache state holding malformed (colon-free) values for both plates,
for witnesses. -/
def malformedCache : CacheState :=
  [("whitelist:A123BC777", "garbage"), ("blacklist:A123BC777", "nocolon")]

/-! ### Theorems -/

/-- Every decision path wraps its response in `Except.ok`. -/
lemma finishDecision_result (env : CheckEnv) (req : CheckAccessRequest)
    (resp : CheckAccessResponse) (calls : List CallTag)
    (v : Option Vehicle) (u : Option User) :
    (finishDecision env req resp calls v u).result = Except.ok resp := by
  unfold finishDecision
  split <;> rfl

/-- Hard-error exits carry `Except.error ()`. -/
lemma hardError_result_eq (calls : List CallTag) :
    (hardError calls).result = Except.error () := rfl

/-- An access log with a recognized plate, an IN/OUT direction and an
in-range confidence passes validation. -/
lemma accessLog_validate_none (al : AccessLog)
    (hp : al.licensePlate ≠ "")
    (hd : al.direction = "IN" ∨ al.direction = "OUT")
    (hc0 : 0 ≤ al.recognitionConfidence)
    (hc1 : al.recognitionConfidence ≤ 100) :
    al.validate = none := by
  unfold AccessLog.validate
  rw [if_neg hp, if_neg (by rcases hd with h | h <;> simp [h]),
    if_neg (by push_neg; exact ⟨hc0, hc1⟩)]

/-- Under the same conditions, `logAccess` submits a record. -/
lemma logAccess_eq_some (resp : CheckAccessResponse) (req : CheckAccessRequest)
    (v : Option Vehicle) (u : Option User)
    (hp : resp.licensePlate ≠ "")
    (hd : req.direction = "IN" ∨ req.direction = "OUT")
    (hc0 : 0 ≤ resp.confidence) (hc1 : resp.confidence ≤ 100) :
    ∃ al, logAccess resp req v u = some al := by
  unfold logAccess
  dsimp only
  rw [accessLog_validate_none _ hp hd hc0 hc1]
  exact ⟨_, rfl⟩

/-- A decision whose log was submitted produced exactly one record. -/
lemma finishDecision_auditSubmitted_length (env : CheckEnv)
    (req : CheckAccessRequest) (resp : CheckAccessResponse)
    (calls : List CallTag) (v : Option Vehicle) (u : Option User)
    (h : ∃ al, logAccess resp req v u = some al) :
    (finishDecision env req resp calls v u).auditSubmitted.length = 1 := by
  obtain ⟨al, hal⟩ := h
  unfold finishDecision
  rw [hal]
  rfl

/-- After a successful recognition, every execution either exits as a hard
error or terminates through `finishDecision` with the recognized plate and
confidence in the response. -/
lemma checkAccess_shape (mc : Rat) (env : CheckEnv) (req : CheckAccessRequest)
    (rr : RecognitionResult)
    (hrec : env.recognizeFn mc = Except.ok rr) (hs : rr.success = true) :
    (checkAccess mc env req).result = Except.error () ∨
    ∃ resp calls v u,
      checkAccess mc env req = finishDecision env req resp calls v u ∧
      resp.licensePlate = rr.licensePlate ∧ resp.confidence = rr.confidence := by
  unfold checkAccess
  rw [hrec]
  simp only [hs, Bool.not_true, Bool.false_eq_true, if_false]
  repeat' split
  all_goals first
    | exact Or.inl rfl
    | exact Or.inr ⟨_, _, _, _, rfl, rfl, rfl⟩

/-- The returned decision does not depend on whether the audit insert
succeeds. -/
lemma checkAccess_result_audit_independent (mc : Rat) (env : CheckEnv)
    (req : CheckAccessRequest) (b : Bool) :
    (checkAccess mc { env with auditCreateOk := b } req).result =
      (checkAccess mc env req).result := by
  unfold checkAccess
  dsimp only
  repeat' split
  all_goals simp [finishDecision_result, hardError]

/-- Membership in the call list of a decision ignores the audit-insert
tag that `finishDecision` may append. -/
lemma mem_finishDecision_calls (t : CallTag) (env : CheckEnv)
    (req : CheckAccessRequest) (resp : CheckAccessResponse)
    (calls : List CallTag) (v : Option Vehicle) (u : Option User)
    (ht : t ≠ CallTag.auditInsert) :
    t ∈ (finishDecision env req resp calls v u).calls ↔ t ∈ calls := by
  unfold finishDecision
  split <;> simp [List.mem_append, ht]

/-- C1: whenever the recognizer reply is successful and `IsWhitelisted`
reported membership, `CheckAccess` returns a granted decision with reason
`"Whitelisted: <reason>"`, regardless of the deny-list reply, vehicle,
user and pass state (all left arbitrary in `env`), and the execution
performs no deny-list, vehicle, user or pass lookup. -/
theorem whitelisted_grants_unconditionally
    (minConf : Rat) (env : CheckEnv) (req : CheckAccessRequest)
    (rr : RecognitionResult)
    (h1 : env.recognizeFn minConf = Except.ok rr)
    (hs : rr.success = true)
    (hw : env.whitelist.isMember = true) :
    ∃ resp, (checkAccess minConf env req).result = Except.ok resp ∧
      resp.accessGranted = true ∧
      resp.reason = "Whitelisted: " ++ env.whitelist.reason ∧
      CallTag.blacklistCheck ∉ (checkAccess minConf env req).calls ∧
      CallTag.vehicleLookup ∉ (checkAccess minConf env req).calls ∧
      CallTag.userLookup ∉ (checkAccess minConf env req).calls ∧
      CallTag.passLookup ∉ (checkAccess minConf env req).calls := by
  have hred : checkAccess minConf env req =
      finishDecision env req
        { accessGranted := true, licensePlate := rr.licensePlate,
          confidence := rr.confidence, vehicle := none, user := none,
          pass := none, reason := "Whitelisted: " ++ env.whitelist.reason,
          timestamp := env.now }
        [CallTag.recognize, CallTag.whitelistCheck] none none := by
    simp [checkAccess, h1, hs, hw]
  refine ⟨{ accessGranted := true, licensePlate := rr.licensePlate,
            confidence := rr.confidence, vehicle := none, user := none,
            pass := none, reason := "Whitelisted: " ++ env.whitelist.reason,
            timestamp := env.now }, ?_, rfl, rfl, ?_, ?_, ?_, ?_⟩ <;>
    rw [hred] <;>
    unfold finishDecision <;>
    cases hlog : logAccess
      { accessGranted := true, licensePlate := rr.licensePlate,
        confidence := rr.confidence, vehicle := none, user := none,
        pass := none, reason := "Whitelisted: " ++ env.whitelist.reason,
        timestamp := env.now } req none none <;>
    simp

/-- Witness for C1 at a concrete environment. -/
theorem whitelisted_grants_unconditionally_witness :
    ∃ resp,
      (checkAccess 90 envC1 reqStd).result = Except.ok resp ∧
      resp.accessGranted = true ∧
      resp.reason = "Whitelisted: " ++ envC1.whitelist.reason ∧
      CallTag.blacklistCheck ∉ (checkAccess 90 envC1 reqStd).calls ∧
      CallTag.vehicleLookup ∉ (checkAccess 90 envC1 reqStd).calls ∧
      CallTag.userLookup ∉ (checkAccess 90 envC1 reqStd).calls ∧
      CallTag.passLookup ∉ (checkAccess 90 envC1 reqStd).calls :=
  whitelisted_grants_unconditionally 90 envC1 reqStd rrStd rfl rfl rfl

/-- C2: whenever the recognizer reply is successful, `IsWhitelisted`
reported non-membership and `IsBlacklisted` reported membership,
`CheckAccess` returns a denied decision with reason
`"Blacklisted: <reason>"`, regardless of vehicle, user and pass state
(all left arbitrary in `env`), and the execution performs no vehicle,
user or pass lookup. -/
theorem blacklisted_denies_bypassing_lower_tiers
    (minConf : Rat) (env : CheckEnv) (req : CheckAccessRequest)
    (rr : RecognitionResult)
    (h1 : env.recognizeFn minConf = Except.ok rr)
    (hs : rr.success = true)
    (hw : env.whitelist.isMember = false)
    (hb : env.blacklist.isMember = true) :
    ∃ resp, (checkAccess minConf env req).result = Except.ok resp ∧
      resp.accessGranted = false ∧
      resp.reason = "Blacklisted: " ++ env.blacklist.reason ∧
      CallTag.vehicleLookup ∉ (checkAccess minConf env req).calls ∧
      CallTag.userLookup ∉ (checkAccess minConf env req).calls ∧
      CallTag.passLookup ∉ (checkAccess minConf env req).calls := by
  have hred : checkAccess minConf env req =
      finishDecision env req
        { accessGranted := false, licensePlate := rr.licensePlate,
          confidence := rr.confidence, vehicle := none, user := none,
          pass := none, reason := "Blacklisted: " ++ env.blacklist.reason,
          timestamp := env.now }
        [CallTag.recognize, CallTag.whitelistCheck, CallTag.blacklistCheck]
        none none := by
    simp [checkAccess, h1, hs, hw, hb]
  refine ⟨{ accessGranted := false, licensePlate := rr.licensePlate,
            confidence := rr.confidence, vehicle := none, user := none,
            pass := none, reason := "Blacklisted: " ++ env.blacklist.reason,
            timestamp := env.now }, ?_, rfl, rfl, ?_, ?_, ?_⟩ <;>
    rw [hred] <;>
    unfold finishDecision <;>
    cases hlog : logAccess
      { accessGranted := false, licensePlate := rr.licensePlate,
        confidence := rr.confidence, vehicle := none, user := none,
        pass := none, reason := "Blacklisted: " ++ env.blacklist.reason,
        timestamp := env.now } req none none <;>
    simp

/-- Witness for C2 at a concrete environment. -/
theorem blacklisted_denies_bypassing_lower_tiers_witness :
    ∃ resp,
      (checkAccess 90 envC2 reqStd).result = Except.ok resp ∧
      resp.accessGranted = false ∧
      resp.reason = "Blacklisted: " ++ envC2.blacklist.reason ∧
      CallTag.vehicleLookup ∉ (checkAccess 90 envC2 reqStd).calls ∧
      CallTag.userLookup ∉ (checkAccess 90 envC2 reqStd).calls ∧
      CallTag.passLookup ∉ (checkAccess 90 envC2 reqStd).calls :=
  blacklisted_denies_bypassing_lower_tiers 90 envC2 reqStd rrStd rfl rfl rfl rfl

/-- C5 counterexample: a temporary pass whose `valid_until` equals the
current instant IS honorable — `IsValid` returns true at the
exact-equality boundary, because the source tests `now.After(valid_until)`
which is false at equality.  This refutes the claim that the upper bound
is exclusive. -/
theorem pass_valid_at_exact_expiry_counterexample :
    passBoundary.passType = passTypeTemporary ∧
    passBoundary.validUntil = some 100 ∧
    passBoundary.isValid 100 = true := by
  refine ⟨rfl, rfl, ?_⟩
  decide

/-- C5 amended: for an active temporary pass with `valid_until` set,
validity at `now` holds exactly when `valid_from ≤ now ≤ valid_until` —
the upper bound is inclusive; the pass stops being honorable only
strictly after `valid_until`. -/
theorem pass_isValid_temporary_upper_bound_inclusive
    (p : Pass) (u now : Int)
    (ht : p.passType = passTypeTemporary)
    (hu : p.validUntil = some u) :
    p.isValid now = true ↔
      (p.isActive = true ∧ p.validFrom ≤ now ∧ now ≤ u) := by
  unfold Pass.isValid
  rw [hu, ht]
  cases ha : p.isActive
  · simp [passTypeTemporary]
  · simp only [passTypeTemporary, Bool.not_true, Bool.false_eq_true,
      if_false, beq_self_eq_true]
    split <;> rename_i h1 <;> [skip; split <;> rename_i h2] <;>
      simp <;> omega

/-- Witness for the amended C5 at the boundary instant itself. -/
theorem pass_isValid_temporary_upper_bound_inclusive_witness :
    passBoundary.passType = passTypeTemporary ∧
    passBoundary.validUntil = some 100 ∧
    (passBoundary.isValid 100 = true ↔
      (passBoundary.isActive = true ∧ passBoundary.validFrom ≤ 100 ∧
        (100 : Int) ≤ 100)) :=
  ⟨rfl, rfl,
    pass_isValid_temporary_upper_bound_inclusive passBoundary 100 100 rfl rfl⟩

/-- C6: `Pass.Validate` accepts a temporary pass whose `valid_until`
equals `valid_from` (it only rejects `valid_until` strictly before
`valid_from`), while the database constraint `valid_dates_check` of the
same repository (`CHECK (valid_until IS NULL OR valid_until > valid_from)`)
rejects exactly that pass: the write-boundary validation is off by one
against the schema's strict inequality, so the equal-bounds pass reaches
the storage layer instead of being rejected with the invalid-date-range
error. -/
theorem pass_validate_accepts_equal_bounds_schema_rejects :
    passEqualBounds.validate = none ∧
    validDatesCheck passEqualBounds = false := by
  constructor <;> decide

/-- C7 counterexample: with the configured minimum confidence 90, a
recognizer reply that reports success with confidence 10 is not denied —
the engine performs no confidence comparison of its own, and here even
grants (the plate is allow-listed).  This refutes the claim that every
recognition result with confidence below the configured minimum
transitions directly to a denied decision. -/
theorem low_confidence_success_not_denied_counterexample :
    (10 : Rat) < 90 ∧
    (checkAccess 90 envLowConf reqStd).result.toOption.map
      (fun r => r.accessGranted) = some true := by
  constructor
  · norm_num
  · rfl

/-- C7 amended: the engine's configured minimum confidence influences the
outcome only through the request it sends to the recognizer; two
executions whose recognizer replies coincide produce identical outcomes
whatever their configured thresholds — the engine applies no independent
threshold of its own. -/
theorem checkAccess_threshold_only_via_recognizer
    (mc1 mc2 : Rat) (env : CheckEnv) (req : CheckAccessRequest)
    (h : env.recognizeFn mc1 = env.recognizeFn mc2) :
    checkAccess mc1 env req = checkAccess mc2 env req := by
  unfold checkAccess
  rw [h]

/-- Witness for the amended C7: thresholds 0 and 90 with the same
recognizer reply yield the same outcome. -/
theorem checkAccess_threshold_only_via_recognizer_witness :
    envC1.recognizeFn 0 = envC1.recognizeFn 90 ∧
    checkAccess 0 envC1 reqStd = checkAccess 90 envC1 reqStd :=
  ⟨rfl, checkAccess_threshold_only_via_recognizer 0 90 envC1 reqStd rfl⟩

/-- C3 counterexample: when the recognizer call fails, `CheckAccess`
still returns a terminal denied decision, but no audit record is created:
the assembled log has an empty recognized plate, fails
`AccessLog.Validate`, and `logAccess` skips the write.  This refutes the
claim that exactly one audit record is created for every terminal
decision, including recognition failures. -/
theorem recognition_failure_decision_without_audit_counterexample :
    (checkAccess 90 envRecogFail reqStd).result =
      Except.ok
        { accessGranted := false, licensePlate := "", confidence := 0,
          vehicle := none, user := none, pass := none,
          reason := "Recognition service unavailable", timestamp := 50 } ∧
    (checkAccess 90 envRecogFail reqStd).auditSubmitted = [] ∧
    (checkAccess 90 envRecogFail reqStd).auditPersisted = [] :=
  ⟨rfl, rfl, rfl⟩

/-- C3 amended: every terminal decision path invokes the audit write
before returning, but the record is created exactly when the assembled
log passes `AccessLog.Validate`: every decision reached after a
successful recognition with a non-empty plate, an IN/OUT direction and an
in-range confidence produces exactly one audit record, while
recognition-failure decisions (empty recognized plate) produce none (see
the counterexample); and the failure of the audit insert itself never
changes the decision returned. -/
theorem audit_write_iff_log_validates (mc : Rat) (env : CheckEnv)
    (req : CheckAccessRequest) :
    (∀ rr resp, env.recognizeFn mc = Except.ok rr → rr.success = true →
      rr.licensePlate ≠ "" → (req.direction = "IN" ∨ req.direction = "OUT") →
      0 ≤ rr.confidence → rr.confidence ≤ 100 →
      (checkAccess mc env req).result = Except.ok resp →
      (checkAccess mc env req).auditSubmitted.length = 1) ∧
    (∀ b, (checkAccess mc { env with auditCreateOk := b } req).result =
      (checkAccess mc env req).result) := by
  constructor
  · intro rr resp hrec hs hp hd hc0 hc1 hok
    rcases checkAccess_shape mc env req rr hrec hs with
      herr | ⟨r, calls, v, u, heq, hplate, hconf⟩
    · rw [hok] at herr
      simp at herr
    · rw [heq]
      exact finishDecision_auditSubmitted_length env req r calls v u
        (logAccess_eq_some r req v u (by rw [hplate]; exact hp) hd
          (by rw [hconf]; exact hc0) (by rw [hconf]; exact hc1))
  · exact checkAccess_result_audit_independent mc env req

/-- Witness for the amended C3: a granted decision produces exactly one
audit record, and disabling the audit insert leaves the decision
unchanged. -/
theorem audit_write_iff_log_validates_witness :
    (checkAccess 90 envC1 reqStd).auditSubmitted.length = 1 ∧
    (checkAccess 90 { envC1 with auditCreateOk := false } reqStd).result =
      (checkAccess 90 envC1 reqStd).result :=
  ⟨(audit_write_iff_log_validates 90 envC1 reqStd).1 rrStd
      { accessGranted := true, licensePlate := "A123BC777", confidence := 95,
        vehicle := none, user := none, pass := none,
        reason := "Whitelisted: emergency services", timestamp := 50 }
      rfl rfl (by decide) (Or.inl rfl) (by norm_num [rrStd])
      (by norm_num [rrStd]) rfl,
   (audit_write_iff_log_validates 90 envC1 reqStd).2 false⟩

/-- C4: a hard error is returned to the caller exactly when, after a
successful recognition with neither list reporting membership, the
vehicle lookup, the owner lookup or the pass fetch fails with a
non-"not found" error — so allow/deny-list check errors are never
surfaced as errors (the characterization does not mention their error
flags), record-tier store errors are never converted into a denied
decision, and the deny-list tier and vehicle tier are still evaluated
after a failed (non-member) allow-list or deny-list check. -/
theorem list_errors_fail_open_record_errors_fail_closed (mc : Rat)
    (env : CheckEnv) (req : CheckAccessRequest) :
    ((checkAccess mc env req).result = Except.error () ↔
      ((∃ rr, env.recognizeFn mc = Except.ok rr ∧ rr.success = true) ∧
       env.whitelist.isMember = false ∧
       env.blacklist.isMember = false ∧
       (env.vehicle = Except.error FetchErr.store ∨
        (∃ v, env.vehicle = Except.ok v ∧ v.isActive = true ∧
          (env.user = Except.error FetchErr.store ∨
           (∃ u, env.user = Except.ok u ∧ u.isActive = true ∧
             env.passes = Except.error ())))))) ∧
    (CallTag.blacklistCheck ∈ (checkAccess mc env req).calls ↔
      ((∃ rr, env.recognizeFn mc = Except.ok rr ∧ rr.success = true) ∧
       env.whitelist.isMember = false)) ∧
    (CallTag.vehicleLookup ∈ (checkAccess mc env req).calls ↔
      ((∃ rr, env.recognizeFn mc = Except.ok rr ∧ rr.success = true) ∧
       env.whitelist.isMember = false ∧
       env.blacklist.isMember = false)) := by
  unfold checkAccess
  repeat' split
  all_goals
    simp_all [finishDecision_result, hardError_result_eq,
      mem_finishDecision_calls, hardError, List.mem_cons]

/-- A freshly set key reads back its value. -/
lemma cacheGet_cacheSet_self (c : CacheState) (k v : String) :
    cacheGet (cacheSet c k v) k = some v := by
  simp [cacheGet, cacheSet]

/-- A deleted key reads back nothing. -/
lemma cacheGet_cacheDel_self (c : CacheState) (k : String) :
    cacheGet (cacheDel c k) k = none := by
  have hfind : List.find? (fun kv => kv.1 == k)
      (List.filter (fun kv => decide (kv.1 ≠ k)) c) = none := by
    rw [List.find?_eq_none]
    intro kv hkv
    have h2 := (List.mem_filter.mp hkv).2
    simpa using h2
  simp [cacheGet, cacheDel, hfind]

/-- Decoding the confirmed-present encoding recovers the reason exactly,
splitting at the first colon only. -/
lemma splitFirstColon_one_encode (r : String) :
    splitFirstColon ("1:" ++ r) = some ("1", r) := rfl

/-- Decoding the confirmed-absent encoding. -/
lemma splitFirstColon_zero_encode :
    splitFirstColon "0:" = some ("0", "") := rfl

/-- The store lookup never reports a reason for an absent plate. -/
lemma storeIsWhitelisted_false_reason (store : List WhitelistEntry)
    (plate : String) (now : Int)
    (h : (storeIsWhitelisted store plate now).1 = false) :
    (storeIsWhitelisted store plate now).2 = "" := by
  unfold storeIsWhitelisted at h ⊢
  dsimp only at h ⊢
  split at h
  · simp at h
  · rfl

/-- Blacklist counterpart of `storeIsWhitelisted_false_reason`. -/
lemma storeIsBlacklisted_false_reason (store : List BlacklistEntry)
    (plate : String) (now : Int)
    (h : (storeIsBlacklisted store plate now).1 = false) :
    (storeIsBlacklisted store plate now).2 = "" := by
  unfold storeIsBlacklisted at h ⊢
  dsimp only at h ⊢
  split at h
  · simp at h
  · rfl

/-- Create in terms of the named created entry. -/
lemma storeWhitelistCreate_eq (store : List WhitelistEntry)
    (entry : WhitelistEntry) (newId : Nat) (tC : Int) :
    storeWhitelistCreate store entry newId tC =
      (store ++ [createdWhitelistEntry entry newId tC],
        createdWhitelistEntry entry newId tC) := rfl

/-- Blacklist counterpart of `storeWhitelistCreate_eq`. -/
lemma storeBlacklistCreate_eq (store : List BlacklistEntry)
    (entry : BlacklistEntry) (newId : Nat) (tC : Int) :
    storeBlacklistCreate store entry newId tC =
      (store ++ [createdBlacklistEntry entry newId tC],
        createdBlacklistEntry entry newId tC) := rfl

/-- On a cache miss the lookup answers exactly as the store does, and an
immediately following warm (cache-hit) lookup decodes the freshly written
value back to the same answer. -/
lemma whitelist_warm_equals_cold (wcache : CacheState)
    (wstore : List WhitelistEntry) (plate : String) (now : Int)
    (hmiss : cacheGet wcache ("whitelist:" ++ plate) = none) :
    (cachedIsWhitelisted wcache wstore plate now).1 =
      storeIsWhitelisted wstore plate now ∧
    (cachedIsWhitelisted (cachedIsWhitelisted wcache wstore plate now).2
        wstore plate now).1 =
      (cachedIsWhitelisted wcache wstore plate now).1 := by
  have hcold : cachedIsWhitelisted wcache wstore plate now =
      (storeIsWhitelisted wstore plate now,
        cacheSet wcache ("whitelist:" ++ plate)
          (if (storeIsWhitelisted wstore plate now).1 then
            "1:" ++ (storeIsWhitelisted wstore plate now).2 else "0:")) := by
    simp [cachedIsWhitelisted, hmiss]
  refine ⟨by rw [hcold], ?_⟩
  rw [hcold]
  cases hb : (storeIsWhitelisted wstore plate now).1
  · have hr := storeIsWhitelisted_false_reason wstore plate now hb
    simp only [cachedIsWhitelisted, cacheGet_cacheSet_self, hb,
      if_false, Bool.false_eq_true, splitFirstColon_zero_encode]
    have e0 : ("0" == "1") = false := rfl
    rw [e0, ← hb, ← hr]
  · simp only [cachedIsWhitelisted, cacheGet_cacheSet_self, hb,
      if_true, splitFirstColon_one_encode]
    have e1 : ("1" == "1") = true := rfl
    rw [e1, ← hb]

/-- Blacklist counterpart of `whitelist_warm_equals_cold`. -/
lemma blacklist_warm_equals_cold (bcache : CacheState)
    (bstore : List BlacklistEntry) (plate : String) (now : Int)
    (hmiss : cacheGet bcache ("blacklist:" ++ plate) = none) :
    (cachedIsBlacklisted bcache bstore plate now).1 =
      storeIsBlacklisted bstore plate now ∧
    (cachedIsBlacklisted (cachedIsBlacklisted bcache bstore plate now).2
        bstore plate now).1 =
      (cachedIsBlacklisted bcache bstore plate now).1 := by
  have hcold : cachedIsBlacklisted bcache bstore plate now =
      (storeIsBlacklisted bstore plate now,
        cacheSet bcache ("blacklist:" ++ plate)
          (if (storeIsBlacklisted bstore plate now).1 then
            "1:" ++ (storeIsBlacklisted bstore plate now).2 else "0:")) := by
    simp [cachedIsBlacklisted, hmiss]
  refine ⟨by rw [hcold], ?_⟩
  rw [hcold]
  cases hb : (storeIsBlacklisted bstore plate now).1
  · have hr := storeIsBlacklisted_false_reason bstore plate now hb
    simp only [cachedIsBlacklisted, cacheGet_cacheSet_self, hb,
      if_false, Bool.false_eq_true, splitFirstColon_zero_encode]
    have e0 : ("0" == "1") = false := rfl
    rw [e0, ← hb, ← hr]
  · simp only [cachedIsBlacklisted, cacheGet_cacheSet_self, hb,
      if_true, splitFirstColon_one_encode]
    have e1 : ("1" == "1") = true := rfl
    rw [e1, ← hb]

/-- Create invalidates the plate's key, delete-by-id leaves the cache
untouched, and the requery therefore reaches the store, which no longer
holds the entry: whitelist half of the round trip. -/
lemma whitelist_create_delete_requery (wcache : CacheState)
    (wstore : List WhitelistEntry) (entry : WhitelistEntry)
    (newId : Nat) (tC tQ : Int)
    (hnorm : normalizeLicensePlate entry.licensePlate = entry.licensePlate)
    (hid : ∀ e0 ∈ wstore, e0.id ≠ newId)
    (hpl : ∀ e0 ∈ wstore, e0.licensePlate ≠ entry.licensePlate) :
    ∃ cache2 store2,
      cachedWhitelistDelete (cachedWhitelistCreate wcache wstore entry newId tC).1
        (cachedWhitelistCreate wcache wstore entry newId tC).2.1 newId
        = Except.ok (cache2, store2) ∧
      (cachedIsWhitelisted cache2 store2 entry.licensePlate tQ).1 = (false, "") := by
  have hEplate : (createdWhitelistEntry entry newId tC).licensePlate =
      entry.licensePlate := by
    simp [createdWhitelistEntry, hnorm]
  have hcreate1 : (cachedWhitelistCreate wcache wstore entry newId tC).1 =
      cacheDel wcache ("whitelist:" ++ entry.licensePlate) := by
    simp [cachedWhitelistCreate, storeWhitelistCreate_eq, hEplate]
  have hcreate2 : (cachedWhitelistCreate wcache wstore entry newId tC).2.1 =
      wstore ++ [createdWhitelistEntry entry newId tC] := by
    simp [cachedWhitelistCreate, storeWhitelistCreate_eq]
  rw [hcreate1, hcreate2]
  have hdel : storeWhitelistDelete
      (wstore ++ [createdWhitelistEntry entry newId tC]) newId =
      Except.ok wstore := by
    unfold storeWhitelistDelete
    rw [if_pos (by simp [createdWhitelistEntry])]
    congr 1
    rw [List.filter_append]
    have h1 : wstore.filter (fun e => e.id ≠ newId) = wstore := by
      rw [List.filter_eq_self]
      intro a ha
      simpa using hid a ha
    have h2 : ([createdWhitelistEntry entry newId tC].filter
        (fun e : WhitelistEntry => e.id ≠ newId)) = [] := by
      simp [createdWhitelistEntry]
    rw [h1, h2, List.append_nil]
  refine ⟨cacheDel wcache ("whitelist:" ++ entry.licensePlate), wstore, ?_, ?_⟩
  · unfold cachedWhitelistDelete
    rw [hdel]
  · have hmiss := cacheGet_cacheDel_self wcache ("whitelist:" ++ entry.licensePlate)
    have hstore : storeIsWhitelisted wstore entry.licensePlate tQ = (false, "") := by
      unfold storeIsWhitelisted
      dsimp only
      rw [hnorm]
      have hfind : List.find? (fun e =>
          e.licensePlate == entry.licensePlate && e.isActive &&
            match e.expiresAt with
            | none => true
            | some t => decide (tQ < t)) wstore = none := by
        rw [List.find?_eq_none]
        intro e0 he0
        simp [hpl e0 he0]
      rw [hfind]
    simp [cachedIsWhitelisted, hmiss, hstore]

/-- Blacklist counterpart of `whitelist_create_delete_requery`. -/
lemma blacklist_create_delete_requery (bcache : CacheState)
    (bstore : List BlacklistEntry) (entry : BlacklistEntry)
    (newId : Nat) (tC tQ : Int)
    (hnorm : normalizeLicensePlate entry.licensePlate = entry.licensePlate)
    (hid : ∀ e0 ∈ bstore, e0.id ≠ newId)
    (hpl : ∀ e0 ∈ bstore, e0.licensePlate ≠ entry.licensePlate) :
    ∃ cache2 store2,
      cachedBlacklistDelete (cachedBlacklistCreate bcache bstore entry newId tC).1
        (cachedBlacklistCreate bcache bstore entry newId tC).2.1 newId
        = Except.ok (cache2, store2) ∧
      (cachedIsBlacklisted cache2 store2 entry.licensePlate tQ).1 = (false, "") := by
  have hEplate : (createdBlacklistEntry entry newId tC).licensePlate =
      entry.licensePlate := by
    simp [createdBlacklistEntry, hnorm]
  have hcreate1 : (cachedBlacklistCreate bcache bstore entry newId tC).1 =
      cacheDel bcache ("blacklist:" ++ entry.licensePlate) := by
    simp [cachedBlacklistCreate, storeBlacklistCreate_eq, hEplate]
  have hcreate2 : (cachedBlacklistCreate bcache bstore entry newId tC).2.1 =
      bstore ++ [createdBlacklistEntry entry newId tC] := by
    simp [cachedBlacklistCreate, storeBlacklistCreate_eq]
  rw [hcreate1, hcreate2]
  have hdel : storeBlacklistDelete
      (bstore ++ [createdBlacklistEntry entry newId tC]) newId =
      Except.ok bstore := by
    unfold storeBlacklistDelete
    rw [if_pos (by simp [createdBlacklistEntry])]
    congr 1
    rw [List.filter_append]
    have h1 : bstore.filter (fun e => e.id ≠ newId) = bstore := by
      rw [List.filter_eq_self]
      intro a ha
      simpa using hid a ha
    have h2 : ([createdBlacklistEntry entry newId tC].filter
        (fun e : BlacklistEntry => e.id ≠ newId)) = [] := by
      simp [createdBlacklistEntry]
    rw [h1, h2, List.append_nil]
  refine ⟨cacheDel bcache ("blacklist:" ++ entry.licensePlate), bstore, ?_, ?_⟩
  · unfold cachedBlacklistDelete
    rw [hdel]
  · have hmiss := cacheGet_cacheDel_self bcache ("blacklist:" ++ entry.licensePlate)
    have hstore : storeIsBlacklisted bstore entry.licensePlate tQ = (false, "") := by
      unfold storeIsBlacklisted
      dsimp only
      rw [hnorm]
      have hfind : List.find? (fun e =>
          e.licensePlate == entry.licensePlate && e.isActive &&
            match e.expiresAt with
            | none => true
            | some t => decide (tQ < t)) bstore = none := by
        rw [List.find?_eq_none]
        intro e0 he0
        simp [hpl e0 he0]
      rw [hfind]
    simp [cachedIsBlacklisted, hmiss, hstore]

/-- C8: creating an allow-list (or deny-list) entry for an identifier and
then deleting that entry by its id leaves the subsequent membership query
answering not-a-member with no reason, for any prior cache contents
(including a stale confirmed-present value) and any query instant before
the TTL would expire: the create invalidated the single key, nothing
re-populated it, and the query falls through to the store, which reflects
the deletion. -/
theorem create_delete_requery_reflects_deletion
    (wcache bcache : CacheState)
    (wstore : List WhitelistEntry) (bstore : List BlacklistEntry)
    (wentry : WhitelistEntry) (bentry : BlacklistEntry)
    (wId bId : Nat) (tC tQ : Int)
    (hwnorm : normalizeLicensePlate wentry.licensePlate = wentry.licensePlate)
    (hwid : ∀ e0 ∈ wstore, e0.id ≠ wId)
    (hwpl : ∀ e0 ∈ wstore, e0.licensePlate ≠ wentry.licensePlate)
    (hbnorm : normalizeLicensePlate bentry.licensePlate = bentry.licensePlate)
    (hbid : ∀ e0 ∈ bstore, e0.id ≠ bId)
    (hbpl : ∀ e0 ∈ bstore, e0.licensePlate ≠ bentry.licensePlate) :
    (∃ cache2 store2,
      cachedWhitelistDelete (cachedWhitelistCreate wcache wstore wentry wId tC).1
        (cachedWhitelistCreate wcache wstore wentry wId tC).2.1 wId
        = Except.ok (cache2, store2) ∧
      (cachedIsWhitelisted cache2 store2 wentry.licensePlate tQ).1 = (false, "")) ∧
    (∃ cache2 store2,
      cachedBlacklistDelete (cachedBlacklistCreate bcache bstore bentry bId tC).1
        (cachedBlacklistCreate bcache bstore bentry bId tC).2.1 bId
        = Except.ok (cache2, store2) ∧
      (cachedIsBlacklisted cache2 store2 bentry.licensePlate tQ).1 = (false, "")) :=
  ⟨whitelist_create_delete_requery wcache wstore wentry wId tC tQ hwnorm hwid hwpl,
   blacklist_create_delete_requery bcache bstore bentry bId tC tQ hbnorm hbid hbpl⟩

/-- Witness for C8, starting from a cache that even holds stale
confirmed-present values for both plates. -/
theorem create_delete_requery_reflects_deletion_witness :
    (∃ cache2 store2,
      cachedWhitelistDelete
        (cachedWhitelistCreate stalePresentCache [] entryC8w 9 5).1
        (cachedWhitelistCreate stalePresentCache [] entryC8w 9 5).2.1 9
        = Except.ok (cache2, store2) ∧
      (cachedIsWhitelisted cache2 store2 entryC8w.licensePlate 6).1 =
        (false, "")) ∧
    (∃ cache2 store2,
      cachedBlacklistDelete
        (cachedBlacklistCreate stalePresentCache [] entryC8b 9 5).1
        (cachedBlacklistCreate stalePresentCache [] entryC8b 9 5).2.1 9
        = Except.ok (cache2, store2) ∧
      (cachedIsBlacklisted cache2 store2 entryC8b.licensePlate 6).1 =
        (false, "")) :=
  create_delete_requery_reflects_deletion stalePresentCache stalePresentCache
    [] [] entryC8w entryC8b 9 9 5 6
    (by decide) (by simp) (by simp) (by decide) (by simp) (by simp)

/-- C9: the cache encoding round-trips exactly: starting from a cache
miss, the cold lookup answers as the authoritative store does and writes
the encoded value, and the warm lookup that hits this value decodes it
back to the same membership boolean and character-identical reason, for
both the allow-list and the deny-list. -/
theorem cached_lookup_round_trips_store_answer
    (wcache bcache : CacheState)
    (wstore : List WhitelistEntry) (bstore : List BlacklistEntry)
    (plate : String) (now : Int)
    (hwmiss : cacheGet wcache ("whitelist:" ++ plate) = none)
    (hbmiss : cacheGet bcache ("blacklist:" ++ plate) = none) :
    ((cachedIsWhitelisted wcache wstore plate now).1 =
        storeIsWhitelisted wstore plate now ∧
      (cachedIsWhitelisted (cachedIsWhitelisted wcache wstore plate now).2
          wstore plate now).1 =
        (cachedIsWhitelisted wcache wstore plate now).1) ∧
    ((cachedIsBlacklisted bcache bstore plate now).1 =
        storeIsBlacklisted bstore plate now ∧
      (cachedIsBlacklisted (cachedIsBlacklisted bcache bstore plate now).2
          bstore plate now).1 =
        (cachedIsBlacklisted bcache bstore plate now).1) :=
  ⟨whitelist_warm_equals_cold wcache wstore plate now hwmiss,
   blacklist_warm_equals_cold bcache bstore plate now hbmiss⟩

/-- Witness for C9 on the spec's example: plate `"A123BC777"` allow-listed
with reason `"emergency services"`. -/
theorem cached_lookup_round_trips_store_answer_witness :
    ((cachedIsWhitelisted [] wstoreStd "A123BC777" 10).1 =
        storeIsWhitelisted wstoreStd "A123BC777" 10 ∧
      (cachedIsWhitelisted (cachedIsWhitelisted [] wstoreStd "A123BC777" 10).2
          wstoreStd "A123BC777" 10).1 =
        (cachedIsWhitelisted [] wstoreStd "A123BC777" 10).1) ∧
    ((cachedIsBlacklisted [] bstoreStd "A123BC777" 10).1 =
        storeIsBlacklisted bstoreStd "A123BC777" 10 ∧
      (cachedIsBlacklisted (cachedIsBlacklisted [] bstoreStd "A123BC777" 10).2
          bstoreStd "A123BC777" 10).1 =
        (cachedIsBlacklisted [] bstoreStd "A123BC777" 10).1) :=
  cached_lookup_round_trips_store_answer [] [] wstoreStd bstoreStd
    "A123BC777" 10 rfl rfl

/-- C10: a cache hit whose stored value contains no colon never yields a
membership answer: the decode is total, returns no decode for such a
value, and the lookup falls through to the authoritative store, whose
answer is returned, for both lists. -/
theorem malformed_cache_value_falls_through_to_store
    (wcache bcache : CacheState)
    (wstore : List WhitelistEntry) (bstore : List BlacklistEntry)
    (plate : String) (now : Int) (v w : String)
    (hwget : cacheGet wcache ("whitelist:" ++ plate) = some v)
    (hwmal : splitFirstColon v = none)
    (hbget : cacheGet bcache ("blacklist:" ++ plate) = some w)
    (hbmal : splitFirstColon w = none) :
    (cachedIsWhitelisted wcache wstore plate now).1 =
      storeIsWhitelisted wstore plate now ∧
    (cachedIsBlacklisted bcache bstore plate now).1 =
      storeIsBlacklisted bstore plate now := by
  constructor
  · simp [cachedIsWhitelisted, hwget, hwmal]
  · simp [cachedIsBlacklisted, hbget, hbmal]

/-- Witness for C10 on a cache holding colon-free garbage for both keys,
with a store that does list the plate: the store's positive answer wins. -/
theorem malformed_cache_value_falls_through_to_store_witness :
    (cachedIsWhitelisted malformedCache wstoreStd "A123BC777" 10).1 =
      storeIsWhitelisted wstoreStd "A123BC777" 10 ∧
    (cachedIsBlacklisted malformedCache bstoreStd "A123BC777" 10).1 =
      storeIsBlacklisted bstoreStd "A123BC777" 10 :=
  malformed_cache_value_falls_through_to_store malformedCache malformedCache
    wstoreStd bstoreStd "A123BC777" 10 "garbage" "nocolon"
    rfl rfl rfl rfl

end Gate
